import Mathlib

/-!
Shallow embedding of the FM Global 8-34 ASRS sprinkler-design agent
(`FMGlobal834Agent`, chat-form-handler): the configuration data model, the
multi-vector retrieval merge, the design-calculation engine, the cost
estimator, the compliance validator and the optimization advisor, together
with theorems checking the specification's claims about them.

Numbers are modelled as `ℚ` (the source's JS numbers), `Math.ceil` as
`Int.ceil`, `Math.round` as `⌊x + 1/2⌋` (JS rounds halves up), and
`String.prototype.includes` as a character-list infix check.  Fallible
database lookups are modelled by `Except` inputs standing for the store's
response.
-/

namespace FMGlobal

/-- Character-list substring occurrence: `pat` occurs somewhere in the list.
Models JS `String.prototype.includes` (the empty pattern occurs in every
string). -/
def charsContain (pat : List Char) : List Char → Bool
  | [] => pat.isEmpty
  | c :: t => List.isPrefixOf pat (c :: t) || charsContain pat t

/-- JS `s.includes(pat)`. -/
def strContains (s pat : String) : Bool := charsContain pat.data s.data

/-- JS `s.toLowerCase()` (ASCII is all the source needs). -/
def strLower (s : String) : String := ⟨s.data.map Char.toLower⟩

/-- JS `Math.round`: nearest integer, halves toward positive infinity. -/
def jsRound (x : ℚ) : ℤ := ⌊x + 1/2⌋

/-- The `asrs_type` union of the TS interface `ASRSConfiguration`. -/
inductive ASRSType
  | shuttle
  | miniLoad
  | horizontalCarousel
deriving DecidableEq, Repr

/-- The TS string literal of each `asrs_type` value. -/
def ASRSType.str : ASRSType → String
  | .shuttle => "Shuttle"
  | .miniLoad => "Mini-Load"
  | .horizontalCarousel => "Horizontal Carousel"

/-- The `container_type` union. -/
inductive ContainerType
  | closedTop
  | openTop
  | mixed
deriving DecidableEq, Repr

/-- The `system_type` union. -/
inductive SystemType
  | wet
  | dry
  | both
deriving DecidableEq, Repr

/-- The TS string literal of each `system_type` value. -/
def SystemType.str : SystemType → String
  | .wet => "wet"
  | .dry => "dry"
  | .both => "both"

/-- The optional `sprinkler_coverage` union. -/
inductive SprinklerCoverage
  | standard
  | extended
deriving DecidableEq, Repr

/-- The optional `expected_throughput` union. -/
inductive Throughput
  | low
  | medium
  | high
deriving DecidableEq, Repr

/-- TS interface `ASRSConfiguration`. -/
structure ASRSConfiguration where
  asrs_type : ASRSType
  container_type : ContainerType
  rack_depth_ft : ℚ
  rack_spacing_ft : ℚ
  ceiling_height_ft : ℚ
  aisle_width_ft : ℚ
  commodity_type : List String
  storage_height_ft : ℚ
  system_type : SystemType
  building_type : Option String
  sprinkler_coverage : Option SprinklerCoverage
  expected_throughput : Option Throughput
deriving DecidableEq, Repr

/-- TS interface `TableResult` (a retrieved design table).  The parsed-JSON
payload fields are kept as raw strings; the engine never reads them. -/
structure TableResult where
  id : String
  table_number : ℤ
  table_id : String
  title : String
  asrs_type : String
  protection_scheme : String
  design_parameters : String
  sprinkler_specifications : String
  special_conditions : List String
  content_text : String
  similarity : ℚ
  applicable_conditions : List String
deriving DecidableEq, Repr

/-- Result record of `performDesignCalculations`. -/
structure DesignCalculations where
  total_sprinklers : ℤ
  sprinkler_spacing : ℚ
  protection_scheme : String
  design_area_sqft : ℚ
  flow_rate_gpm : ℤ
  pressure_psi : ℤ
deriving DecidableEq, Repr

/-- Source `estimateNumberOfRacks` (lines 952-957): a fixed assumed 10,000
sq ft warehouse divided by an assumed `rack_depth_ft × 30 ft` rack
footprint, rounded up. -/
def estimateNumberOfRacks (c : ASRSConfiguration) : ℤ :=
  ⌈(10000 : ℚ) / (c.rack_depth_ft * 30)⌉

/-- The sprinkler-spacing rule chain inlined in `performDesignCalculations`
(lines 449-455): base 8 ft, then 6 ft for Open-Top with depth over 6 ft,
then clamped to at most 7 ft for Mini-Load. -/
def sprinklerSpacingOf (c : ASRSConfiguration) : ℚ :=
  let s1 : ℚ := 8
  let s2 := if c.container_type = ContainerType.openTop ∧ 6 < c.rack_depth_ft then 6 else s1
  if c.asrs_type = ASRSType.miniLoad then min s2 7 else s2

/-- Per-rack sprinkler count inlined in `performDesignCalculations`
(lines 458-459). -/
def sprinklersPerRack (c : ASRSConfiguration) : ℤ :=
  ⌈c.rack_depth_ft / sprinklerSpacingOf c⌉ * ⌈c.rack_spacing_ft / sprinklerSpacingOf c⌉

/-- Total sprinkler count inlined in `performDesignCalculations` (line 460). -/
def totalSprinklersOf (c : ASRSConfiguration) : ℤ :=
  sprinklersPerRack c * estimateNumberOfRacks c

/-- Protection-scheme string inlined in `performDesignCalculations`
(lines 463-469).  The source replaces the first occurrence of "wet"; the
two candidate strings contain at most one, so `String.replace` agrees. -/
def protectionSchemeOf (c : ASRSConfiguration) : String :=
  let base :=
    if 25 < c.storage_height_ft ∨ c.commodity_type.any (fun x => strContains x "Plastic") then
      "Ceiling plus in-rack protection"
    else "Ceiling-only wet system"
  if c.system_type = SystemType.dry then base.replace "wet" "dry" else base

/-- Source `calculateFlowRate` (lines 505-525): commodity-keyed base GPM by
independent `if`s (last match wins), a 1.2 multiplier above 30 ft ceilings,
and a 12-head design-area cap, rounded up. -/
def calculateFlowRate (c : ASRSConfiguration) (sprinklerCount : ℤ) : ℤ :=
  let b0 : ℚ := 20
  let b1 := if c.commodity_type.any (fun x => strContains x "Class III") then 25 else b0
  let b2 := if c.commodity_type.any (fun x => strContains x "Class IV") then 30 else b1
  let b3 := if c.commodity_type.any (fun x => strContains x "Plastic") then 35 else b2
  let b4 := if 30 < c.ceiling_height_ft then b3 * 1.2 else b3
  ⌈b4 * ((min sprinklerCount 12 : ℤ) : ℚ)⌉

/-- Source `calculatePressureRequirement` (lines 527-542). -/
def calculatePressureRequirement (c : ASRSConfiguration) (flowRate : ℤ) : ℤ :=
  let basePressure : ℚ := 15
  let kFactor : ℚ := if c.sprinkler_coverage = some SprinklerCoverage.extended then 14 else 11.2
  let requiredPressure := ((flowRate : ℚ) / kFactor) ^ 2
  let elevationPressure := c.ceiling_height_ft * 0.433
  let frictionLoss := (flowRate : ℚ) * 0.1
  ⌈max basePressure requiredPressure + elevationPressure + frictionLoss⌉

/-- Exact-match predicate of `selectPrimaryDesignTable` (lines 488-491). -/
def exactTableMatch (c : ASRSConfiguration) (t : TableResult) : Bool :=
  (strLower t.asrs_type == strLower c.asrs_type.str) &&
  strContains t.protection_scheme c.system_type.str

/-- Partial-match predicate of `selectPrimaryDesignTable` (lines 497-500). -/
def partialTableMatch (c : ASRSConfiguration) (t : TableResult) : Bool :=
  (strLower t.asrs_type == strLower c.asrs_type.str) || (t.asrs_type == "both")

/-- Source `selectPrimaryDesignTable` (lines 486-503): first exact match,
else first partial match, else the first table; `none` models the JS
`undefined`/`null` that `tables[0]` yields on an empty list. -/
def selectPrimaryDesignTable (tables : List TableResult) (c : ASRSConfiguration) :
    Option TableResult :=
  let exactMatches := tables.filter (exactTableMatch c)
  if 0 < exactMatches.length then exactMatches.head?
  else
    let partialMatches := tables.filter (partialTableMatch c)
    if 0 < partialMatches.length then partialMatches.head?
    else tables.head?

/-- Source `performDesignCalculations` (lines 425-484); `none` models the
thrown `No applicable design tables found for configuration` error. -/
def performDesignCalculations (c : ASRSConfiguration) (tables : List TableResult) :
    Option DesignCalculations :=
  match selectPrimaryDesignTable tables c with
  | none => none
  | some _primaryTable =>
    some { total_sprinklers := totalSprinklersOf c
           sprinkler_spacing := sprinklerSpacingOf c
           protection_scheme := protectionSchemeOf c
           design_area_sqft := (totalSprinklersOf c : ℚ) * sprinklerSpacingOf c ^ 2
           flow_rate_gpm := calculateFlowRate c (totalSprinklersOf c)
           pressure_psi := calculatePressureRequirement c (calculateFlowRate c (totalSprinklersOf c)) }

/-- Outcome record of `validateConfiguration`. -/
structure ConfigValidation where
  valid : Bool
  errors : List String
deriving DecidableEq, Repr

/-- Error list built by `validateConfiguration` (lines 894-916), in push
order.  JS truthiness: a number is falsy exactly when it is `0`; the three
union-typed string fields are never the empty string, so their presence
checks are written on the (never-empty) literal. -/
def validateConfigurationErrors (c : ASRSConfiguration) : List String :=
  (if c.asrs_type.str = "" then ["ASRS type is required"] else []) ++
  (if (match c.container_type with
       | ContainerType.closedTop => "Closed-Top"
       | ContainerType.openTop => "Open-Top"
       | ContainerType.mixed => "Mixed") = "" then ["Container type is required"] else []) ++
  (if c.rack_depth_ft = 0 ∨ c.rack_depth_ft < 3 then
    ["Rack depth must be at least 3 feet"] else []) ++
  (if c.rack_spacing_ft = 0 ∨ c.rack_spacing_ft < 2.5 then
    ["Rack spacing must be at least 2.5 feet"] else []) ++
  (if c.ceiling_height_ft = 0 ∨ c.ceiling_height_ft < 15 then
    ["Ceiling height must be at least 15 feet"] else []) ++
  (if c.storage_height_ft = 0 then ["Storage height is required"] else []) ++
  (if c.commodity_type.length = 0 then ["At least one commodity type is required"] else []) ++
  (if c.system_type.str = "" then ["System type is required"] else []) ++
  (if c.storage_height_ft ≠ 0 ∧ c.ceiling_height_ft ≠ 0 ∧
      c.ceiling_height_ft - 4 ≤ c.storage_height_ft then
    ["Storage height must be at least 4 feet below ceiling"] else [])

/-- Source `validateConfiguration` (lines 894-916). -/
def validateConfiguration (c : ASRSConfiguration) : ConfigValidation :=
  { valid := (validateConfigurationErrors c).isEmpty
    errors := validateConfigurationErrors c }

/-- TS interface `ValidationResult`. -/
structure ValidationResult where
  compliant : Bool
  violations : List String
  warnings : List String
  required_modifications : List String
deriving DecidableEq, Repr

/-- Source `validateDesignCompliance` (lines 740-772). -/
def validateDesignCompliance (c : ASRSConfiguration) (calculations : DesignCalculations) :
    ValidationResult :=
  let violations :=
    (if c.ceiling_height_ft - c.storage_height_ft < 4 then
      ["Minimum 4ft clearance required between storage top and ceiling"] else []) ++
    (if 10 < calculations.sprinkler_spacing then
      ["Maximum sprinkler spacing of 10ft exceeded"] else [])
  let warnings :=
    if c.commodity_type.any (fun x => strContains x "Expanded Plastic") ∧
       c.container_type = ContainerType.openTop then
      ["Expanded plastics in open containers require enhanced protection - verify table compliance"]
    else []
  let required_modifications :=
    if 175 < calculations.pressure_psi then
      ["System pressure exceeds 175 PSI - pressure reducing valves required"]
    else []
  { compliant := violations.length = 0
    violations := violations
    warnings := warnings
    required_modifications := required_modifications }

/-- Sprinkler line of the TS `EquipmentList`. -/
structure SprinklerSpec where
  type : String
  kfactor : String
  quantity : ℚ
  unit_cost : ℚ
deriving DecidableEq, Repr

/-- Piping line of the TS `EquipmentList`. -/
structure PipeSpec where
  size : String
  length : ℚ
  unit_cost : ℚ
deriving DecidableEq, Repr

/-- Fitting line of the TS `EquipmentList`. -/
structure FittingSpec where
  type : String
  quantity : ℚ
  unit_cost : ℚ
deriving DecidableEq, Repr

/-- Pump line of the TS `EquipmentList`. -/
structure PumpSpec where
  type : String
  gpm : ℚ
  pressure : ℚ
  unit_cost : ℚ
deriving DecidableEq, Repr

/-- TS interface `EquipmentList`. -/
structure EquipmentList where
  sprinklers : List SprinklerSpec
  piping : List PipeSpec
  fittings : List FittingSpec
  pumps : List PumpSpec
  total_estimated_cost : ℚ
deriving DecidableEq, Repr

/-- TS interface `CostLineItem`. -/
structure CostLineItem where
  description : String
  unit_cost : ℚ
  quantity : ℚ
  total : ℚ
deriving DecidableEq, Repr

/-- TS interface `CostBreakdown`. -/
structure CostBreakdown where
  items : List CostLineItem
  subtotal : ℚ
  labor : ℚ
  total : ℚ
deriving DecidableEq, Repr

/-- Source `calculateComprehensiveCost` (lines 621-677): line items from the
four equipment groups, `labor = Math.round(subtotal * 0.4)` and
`total = subtotal + labor` computed from the unrounded subtotal, while the
returned `subtotal` field is rounded. -/
def calculateComprehensiveCost (equipment : EquipmentList) (_c : ASRSConfiguration) :
    CostBreakdown :=
  let items : List CostLineItem :=
    equipment.sprinklers.map (fun s =>
      { description := s.type ++ " Sprinklers (" ++ toString s.quantity ++ ")"
        unit_cost := s.unit_cost
        quantity := s.quantity
        total := s.quantity * s.unit_cost }) ++
    equipment.piping.map (fun p =>
      { description := p.size ++ " Pipe (" ++ toString p.length ++ " ft)"
        unit_cost := p.unit_cost
        quantity := p.length
        total := p.length * p.unit_cost }) ++
    equipment.fittings.map (fun f =>
      { description := f.type ++ " (" ++ toString f.quantity ++ ")"
        unit_cost := f.unit_cost
        quantity := f.quantity
        total := f.quantity * f.unit_cost }) ++
    equipment.pumps.map (fun p =>
      { description := p.type ++ " (" ++ toString p.gpm ++ " GPM @ " ++ toString p.pressure ++ " PSI)"
        unit_cost := p.unit_cost
        quantity := 1
        total := p.unit_cost })
  let subtotal := (items.map CostLineItem.total).sum
  let labor : ℚ := (jsRound (subtotal * 0.4) : ℤ)
  let total := subtotal + labor
  { items := items
    subtotal := (jsRound subtotal : ℤ)
    labor := labor
    total := total }

/-- The `type` union of the TS `OptimizationSuggestion`. -/
inductive SuggestionType
  | spacing_optimization
  | protection_scheme
  | container_modification
  | system_type
deriving DecidableEq, Repr

/-- The `feasibility` union of the TS `OptimizationSuggestion`. -/
inductive Feasibility
  | high
  | medium
  | low
deriving DecidableEq, Repr

/-- TS interface `OptimizationSuggestion`; the source always fills
`new_configuration` with a full spread of the input configuration, so the
`Partial` type is modelled by a full optional configuration. -/
structure OptimizationSuggestion where
  type : SuggestionType
  description : String
  estimated_savings : ℤ
  feasibility : Feasibility
  requirements_impact : String
  new_configuration : Option ASRSConfiguration
deriving DecidableEq, Repr

/-- Source `calculateSpacingOptimization` (lines 728-736). -/
def calculateSpacingOptimization (calculations : DesignCalculations) (costs : CostBreakdown) :
    ℤ :=
  let currentSpacing := calculations.sprinkler_spacing
  let newSpacing : ℚ := 8
  let reductionFactor := (currentSpacing / newSpacing) ^ 2
  let sprinklerSavings :=
    ((costs.items.find? (fun item => strContains item.description "Sprinklers")).map
      CostLineItem.total).getD 0
  jsRound (sprinklerSavings * (1 - reductionFactor))

/-- The JS sort comparator `(a, b) => b.estimated_savings - a.estimated_savings`
(descending savings), as a boolean "may precede" relation. -/
def savingsDescLe (a b : OptimizationSuggestion) : Bool :=
  b.estimated_savings ≤ a.estimated_savings

/-- Source `generateOptimizationSuggestions` (lines 681-726): up to three
rule-driven suggestions, sorted descending by `estimated_savings` (JS `sort`
is stable; `mergeSort` models it). -/
def generateOptimizationSuggestions (c : ASRSConfiguration)
    (calculations : DesignCalculations) (costs : CostBreakdown) :
    List OptimizationSuggestion :=
  let suggestions : List OptimizationSuggestion :=
    (if calculations.sprinkler_spacing < 8 ∧ c.container_type ≠ ContainerType.openTop then
      [{ type := SuggestionType.spacing_optimization
         description := "Increase sprinkler spacing from " ++
           toString calculations.sprinkler_spacing ++ "ft to 8ft"
         estimated_savings := calculateSpacingOptimization calculations costs
         feasibility := Feasibility.high
         requirements_impact := "No impact on FM Global compliance for closed-top containers"
         new_configuration := some { c with rack_spacing_ft := 8 } }]
    else []) ++
    (if c.system_type = SystemType.dry ∧ c.ceiling_height_ft < 25 then
      [{ type := SuggestionType.system_type
         description := "Consider wet system if freezing conditions can be managed"
         estimated_savings := jsRound (costs.total * 0.15)
         feasibility := Feasibility.medium
         requirements_impact := "Faster response time and simplified maintenance"
         new_configuration := some { c with system_type := SystemType.wet } }]
    else []) ++
    (if c.container_type = ContainerType.openTop ∧
        c.commodity_type.all (fun x => !strContains x "Plastic") then
      [{ type := SuggestionType.container_modification
         description := "Switch to closed-top containers to reduce sprinkler requirements"
         estimated_savings := jsRound (costs.total * 0.25)
         feasibility := Feasibility.low
         requirements_impact := "Operational change required, but significant fire protection reduction"
         new_configuration := some { c with container_type := ContainerType.closedTop } }]
    else [])
  suggestions.mergeSort savingsDescLe

/-- TS `Partial<ASRSConfiguration>`: every field optional, as produced by
the query analyzer. -/
structure PartialASRSConfiguration where
  asrs_type : Option ASRSType
  container_type : Option ContainerType
  rack_depth_ft : Option ℚ
  rack_spacing_ft : Option ℚ
  ceiling_height_ft : Option ℚ
  aisle_width_ft : Option ℚ
  commodity_type : Option (List String)
  storage_height_ft : Option ℚ
  system_type : Option SystemType
  building_type : Option String
  sprinkler_coverage : Option SprinklerCoverage
  expected_throughput : Option Throughput
deriving DecidableEq, Repr

/-- JS truthiness of an optional number: present and nonzero. -/
def truthyQ : Option ℚ → Bool
  | none => false
  | some x => x ≠ 0

/-- Database row of `fm_global_figures` (the columns the agent reads). -/
structure FigureRow where
  id : String
  figure_number : ℤ
  title : String
  normalized_summary : String
  figure_type : String
  asrs_type : String
  container_type : String
  max_depth_ft : ℚ
  max_spacing_ft : ℚ
  machine_readable_claims : String
  page_number : ℤ
deriving DecidableEq, Repr

/-- TS interface `FigureResult`. -/
structure FigureResult where
  id : String
  figure_number : ℤ
  title : String
  normalized_summary : String
  figure_type : String
  asrs_type : String
  container_type : String
  max_depth_ft : ℚ
  max_spacing_ft : ℚ
  machine_readable_claims : String
  page_number : ℤ
  similarity : ℚ
  applicable_conditions : List String
deriving DecidableEq, Repr

/-- Database row of `fm_table_vectors`. -/
structure TableVectorRow where
  table_id : String
  content_text : String
deriving DecidableEq, Repr

/-- Database row of `fm_global_tables` (the columns the agent reads). -/
structure TableRow where
  id : String
  table_number : ℤ
  table_id : String
  title : String
  asrs_type : String
  protection_scheme : String
  design_parameters : String
  sprinkler_specifications : String
  special_conditions : List String
  ceiling_height_min_ft : ℚ
deriving DecidableEq, Repr

/-- Database row of `fm_text_chunks` (the columns the merge step reads). -/
structure TextChunkRow where
  id : String
  raw_text : String
  similarity : ℚ
deriving DecidableEq, Repr

/-- Source `extractApplicableConditions` (lines 918-934). -/
def extractApplicableConditions (row : FigureRow) (config : Option PartialASRSConfiguration) :
    List String :=
  (if truthyQ (some row.max_depth_ft) && truthyQ (config.bind PartialASRSConfiguration.rack_depth_ft) then
    (if (config.bind PartialASRSConfiguration.rack_depth_ft).getD 0 ≤ row.max_depth_ft then
      ["Rack depth ≤ " ++ toString row.max_depth_ft ++ "ft"] else [])
  else []) ++
  (if truthyQ (some row.max_spacing_ft) && truthyQ (config.bind PartialASRSConfiguration.rack_spacing_ft) then
    (if (config.bind PartialASRSConfiguration.rack_spacing_ft).getD 0 ≤ row.max_spacing_ft then
      ["Spacing ≤ " ++ toString row.max_spacing_ft ++ "ft"] else [])
  else [])

/-- Source `extractTableConditions` (lines 936-950). -/
def extractTableConditions (row : TableRow) (config : Option PartialASRSConfiguration) :
    List String :=
  (if truthyQ (some row.ceiling_height_min_ft) && truthyQ (config.bind PartialASRSConfiguration.ceiling_height_ft) then
    (if row.ceiling_height_min_ft ≤ (config.bind PartialASRSConfiguration.ceiling_height_ft).getD 0 then
      ["Ceiling height ≥ " ++ toString row.ceiling_height_min_ft ++ "ft"] else [])
  else []) ++
  (if row.protection_scheme ≠ "" then ["Protection: " ++ row.protection_scheme] else [])

/-- Source `searchFigureVectors` (lines 315-354).  The structural filters
and the similarity ordering run inside the store; the `Except` argument is
the store's response (`error` for a failed lookup, whereupon the source
logs and returns `[]`).  The source fills `similarity` with the placeholder
`0.5`. -/
def searchFigureVectors (figRes : Except String (List FigureRow))
    (config : Option PartialASRSConfiguration) : List FigureResult :=
  match figRes with
  | Except.error _ => []
  | Except.ok data =>
    data.map (fun row =>
      { id := row.id
        figure_number := row.figure_number
        title := row.title
        normalized_summary := row.normalized_summary
        figure_type := row.figure_type
        asrs_type := row.asrs_type
        container_type := row.container_type
        max_depth_ft := row.max_depth_ft
        max_spacing_ft := row.max_spacing_ft
        machine_readable_claims := row.machine_readable_claims
        page_number := row.page_number
        similarity := 0.5
        applicable_conditions := extractApplicableConditions row config })

/-- Source `searchTableVectors` (lines 356-403): a failed vector lookup or
a failed metadata lookup yields `[]`; vector rows are joined back to table
metadata by `table_id`, rows without metadata silently dropped
(`.filter(Boolean)`). -/
def searchTableVectors (vecRes : Except String (List TableVectorRow))
    (metaRes : Except String (List TableRow))
    (config : Option PartialASRSConfiguration) : List TableResult :=
  match vecRes with
  | Except.error _ => []
  | Except.ok vectorData =>
    match metaRes with
    | Except.error _ => []
    | Except.ok tableData =>
      (vectorData.map (fun vectorRow =>
        match tableData.find? (fun t => t.table_id == vectorRow.table_id) with
        | none => none
        | some tableRow =>
          some { id := tableRow.id
                 table_number := tableRow.table_number
                 table_id := tableRow.table_id
                 title := tableRow.title
                 asrs_type := tableRow.asrs_type
                 protection_scheme := tableRow.protection_scheme
                 design_parameters := tableRow.design_parameters
                 sprinkler_specifications := tableRow.sprinkler_specifications
                 special_conditions := tableRow.special_conditions
                 content_text := vectorRow.content_text
                 similarity := 0.5
                 applicable_conditions := extractTableConditions tableRow config })).reduceOption

/-- Source `searchTextChunks` (lines 405-421): a failed lookup yields `[]`,
otherwise the raw rows are returned. -/
def searchTextChunks (txtRes : Except String (List TextChunkRow)) : List TextChunkRow :=
  match txtRes with
  | Except.error _ => []
  | Except.ok data => data

/-- A merged retrieval source tagged with its kind, modelling the JS spread
`{ ...r, source_type: ... }`. -/
inductive RetrievedSource
  | figure (f : FigureResult)
  | table (t : TableResult)
  | text (r : TextChunkRow)
deriving DecidableEq, Repr

/-- Similarity of a merged source, as read by the sort comparator. -/
def RetrievedSource.similarity : RetrievedSource → ℚ
  | .figure f => f.similarity
  | .table t => t.similarity
  | .text r => r.similarity

/-- Return record of `searchMultiVector`. -/
structure SearchResults where
  sources : List RetrievedSource
  figures_referenced : List ℤ
  tables_referenced : List ℤ
deriving DecidableEq, Repr

/-- Source `searchMultiVector` (lines 281-313): the three lookups (their
store responses are the `Except` arguments), tagged, merged, sorted
ascending by similarity (lower = better; JS `sort` is stable, modelled by
`mergeSort`), truncated to the top 10 for presentation, with the full
figure/table reference lists returned alongside. -/
def searchMultiVector (figRes : Except String (List FigureRow))
    (vecRes : Except String (List TableVectorRow))
    (metaRes : Except String (List TableRow))
    (txtRes : Except String (List TextChunkRow))
    (config : Option PartialASRSConfiguration) : SearchResults :=
  let figureResults := searchFigureVectors figRes config
  let tableResults := searchTableVectors vecRes metaRes config
  let textResults := searchTextChunks txtRes
  let allSources :=
    (figureResults.map RetrievedSource.figure ++
     tableResults.map RetrievedSource.table ++
     textResults.map RetrievedSource.text).mergeSort
      (fun a b => a.similarity ≤ b.similarity)
  { sources := allSources.take 10
    figures_referenced := figureResults.map FigureResult.figure_number
    tables_referenced := tableResults.map TableResult.table_number }

/-! ## Helper lemmas -/

theorem filter_head?_eq_find? (p : α → Bool) (l : List α) :
    (l.filter p).head? = l.find? p := by
  induction l with
  | nil => rfl
  | cons a t ih => by_cases h : p a <;> simp [List.filter_cons, List.find?_cons, h, ih]

theorem selectPrimaryDesignTable_eq_none_iff (tables : List TableResult)
    (c : ASRSConfiguration) :
    selectPrimaryDesignTable tables c = none ↔ tables = [] := by
  constructor
  · intro h
    by_contra hne
    obtain ⟨a, t, rfl⟩ := List.exists_cons_of_ne_nil hne
    simp only [selectPrimaryDesignTable] at h
    split_ifs at h with h1 h2
    · rw [List.head?_eq_none_iff] at h
      simp [h] at h1
    · rw [List.head?_eq_none_iff] at h
      simp [h] at h2
    · simp at h
  · intro h
    subst h
    rfl

/-! ## Claim theorems -/

/-- Concrete configuration used by the spacing claim: Open-Top, rack depth
10 ft, Mini-Load. -/
def spacingExampleConfig : ASRSConfiguration :=
  { asrs_type := ASRSType.miniLoad
    container_type := ContainerType.openTop
    rack_depth_ft := 10
    rack_spacing_ft := 4
    ceiling_height_ft := 20
    aisle_width_ft := 5
    commodity_type := ["Class I-II"]
    storage_height_ft := 16
    system_type := SystemType.wet
    building_type := none
    sprinkler_coverage := none
    expected_throughput := none }

/-- C3: the computed sprinkler spacing is the cumulative rule chain — it is
always at most 8 ft, Open-Top with rack depth over 6 ft forces at most
6 ft, Mini-Load forces at most 7 ft, and an Open-Top, rack-depth-10,
Mini-Load configuration gets spacing 6 ft (not 7). -/
theorem sprinkler_spacing_rule_chain (c : ASRSConfiguration) :
    sprinklerSpacingOf c ≤ 8 ∧
    (c.container_type = ContainerType.openTop → 6 < c.rack_depth_ft →
      sprinklerSpacingOf c ≤ 6) ∧
    (c.asrs_type = ASRSType.miniLoad → sprinklerSpacingOf c ≤ 7) ∧
    (c.container_type = ContainerType.openTop → c.rack_depth_ft = 10 →
      c.asrs_type = ASRSType.miniLoad → sprinklerSpacingOf c = 6) := by
  unfold sprinklerSpacingOf
  refine ⟨?_, ?_, ?_, ?_⟩
  · split_ifs <;> norm_num
  · intro h1 h2
    split_ifs <;> simp_all
  · intro h
    split_ifs <;> simp_all
  · intro h1 h2 h3
    simp only [h1, h2, h3]
    norm_num [min_def]

/-- Witness for C3 at the Open-Top, depth-10, Mini-Load configuration. -/
theorem sprinkler_spacing_rule_chain_witness :
    sprinklerSpacingOf spacingExampleConfig = 6 ∧
    sprinklerSpacingOf spacingExampleConfig ≤ 7 := by
  refine ⟨(sprinkler_spacing_rule_chain spacingExampleConfig).2.2.2 rfl rfl rfl, ?_⟩
  exact (sprinkler_spacing_rule_chain spacingExampleConfig).2.2.1 rfl

/-- C4: for every configuration and non-empty table list the design
calculation succeeds and its total sprinkler count is the per-rack count
`⌈depth/spacing⌉ × ⌈rack_spacing/spacing⌉` times the estimated rack count
`⌈10000 / (depth × 30)⌉` (fixed 10,000 sq ft warehouse footprint, 30 ft
assumed rack length). -/
theorem total_sprinklers_formula (c : ASRSConfiguration) (tables : List TableResult)
    (h : tables ≠ []) :
    ∃ d, performDesignCalculations c tables = some d ∧
      d.total_sprinklers =
        ⌈c.rack_depth_ft / sprinklerSpacingOf c⌉ * ⌈c.rack_spacing_ft / sprinklerSpacingOf c⌉ *
          ⌈(10000 : ℚ) / (c.rack_depth_ft * 30)⌉ := by
  have hsel : selectPrimaryDesignTable tables c ≠ none := by
    rw [Ne, selectPrimaryDesignTable_eq_none_iff]
    exact h
  obtain ⟨t, ht⟩ := Option.ne_none_iff_exists.mp hsel
  refine ⟨_, by rw [performDesignCalculations, ← ht], ?_⟩
  simp [totalSprinklersOf, sprinklersPerRack, estimateNumberOfRacks]

/-- Concrete table used by witnesses: an exact match for a wet Shuttle
configuration. -/
def shuttleWetTable : TableResult :=
  { id := "tbl-1"
    table_number := 14
    table_id := "FM-8-34-14"
    title := "Shuttle ASRS wet system design"
    asrs_type := "Shuttle"
    protection_scheme := "wet system ceiling protection"
    design_parameters := ""
    sprinkler_specifications := ""
    special_conditions := []
    content_text := ""
    similarity := 0.5
    applicable_conditions := [] }

/-- Witness for C4 at a concrete configuration and one-table list. -/
theorem total_sprinklers_formula_witness :
    ∃ d, performDesignCalculations spacingExampleConfig [shuttleWetTable] = some d ∧
      d.total_sprinklers =
        ⌈spacingExampleConfig.rack_depth_ft / sprinklerSpacingOf spacingExampleConfig⌉ *
          ⌈spacingExampleConfig.rack_spacing_ft / sprinklerSpacingOf spacingExampleConfig⌉ *
          ⌈(10000 : ℚ) / (spacingExampleConfig.rack_depth_ft * 30)⌉ :=
  total_sprinklers_formula spacingExampleConfig [shuttleWetTable] (by simp)

/-- C5: the flow rate equals the ceiling of the commodity-keyed base GPM
(20, overridden by 25 for Class III, 30 for Class IV, 35 for Plastic —
independent `if`s, last match wins, so Plastic beats Class IV beats
Class III), times 1.2 when the ceiling exceeds 30 ft, times the
12-head-capped sprinkler count. -/
theorem flow_rate_formula (c : ASRSConfiguration) (n : ℤ) :
    calculateFlowRate c n =
      ⌈((if c.commodity_type.any (fun x => strContains x "Plastic") then (35 : ℚ)
         else if c.commodity_type.any (fun x => strContains x "Class IV") then 30
         else if c.commodity_type.any (fun x => strContains x "Class III") then 25
         else 20) *
        (if 30 < c.ceiling_height_ft then (1.2 : ℚ) else 1)) * ((min n 12 : ℤ) : ℚ)⌉ := by
  unfold calculateFlowRate
  split_ifs <;> (first | rfl | (congr 1; ring_nf))

/-- C6: the design calculation fails exactly on an empty table list, and the
primary table is the first exact match if one exists, else the first
partial match if one exists, else the first table (ties within a tier
resolved by list order). -/
theorem primary_table_selection (c : ASRSConfiguration) (tables : List TableResult) :
    (performDesignCalculations c tables = none ↔ tables = []) ∧
    selectPrimaryDesignTable tables c =
      (if tables.any (exactTableMatch c) then tables.find? (exactTableMatch c)
       else if tables.any (partialTableMatch c) then tables.find? (partialTableMatch c)
       else tables.head?) := by
  constructor
  · rw [performDesignCalculations]
    constructor
    · intro hn
      rw [← selectPrimaryDesignTable_eq_none_iff tables c]
      cases hs : selectPrimaryDesignTable tables c with
      | none => rfl
      | some t => rw [hs] at hn; simp at hn
    · intro h
      subst h
      rfl
  · unfold selectPrimaryDesignTable
    by_cases h1 : tables.any (exactTableMatch c)
    · have : 0 < (tables.filter (exactTableMatch c)).length := by
        rw [List.length_pos, Ne, List.filter_eq_nil_iff]
        simp only [List.any_eq_true] at h1
        obtain ⟨a, ha, hpa⟩ := h1
        intro hall
        exact absurd hpa (by simpa using hall a ha)
      simp only [this, if_pos, h1, filter_head?_eq_find?]
    · have h1' : (tables.filter (exactTableMatch c)).length = 0 := by
        rw [List.length_eq_zero, List.filter_eq_nil_iff]
        simp only [List.any_eq_true] at h1
        push_neg at h1
        simpa using h1
      rw [if_neg (by omega), if_neg h1]
      by_cases h2 : tables.any (partialTableMatch c)
      · have : 0 < (tables.filter (partialTableMatch c)).length := by
          rw [List.length_pos, Ne, List.filter_eq_nil_iff]
          simp only [List.any_eq_true] at h2
          obtain ⟨a, ha, hpa⟩ := h2
          intro hall
          exact absurd hpa (by simpa using hall a ha)
        simp only [this, if_pos, h2, filter_head?_eq_find?]
      · have h2' : (tables.filter (partialTableMatch c)).length = 0 := by
          rw [List.length_eq_zero, List.filter_eq_nil_iff]
          simp only [List.any_eq_true] at h2
          push_neg at h2
          simpa using h2
        rw [if_neg (by omega), if_neg h2]

theorem mem_ite_singleton {α : Type} {p : Prop} [Decidable p] (a b : α) :
    a ∈ (if p then [b] else []) ↔ p ∧ a = b := by
  split <;> simp_all

/-- C2 counterexample: a configuration on the clearance boundary
(`storage_height_ft = ceiling_height_ft − 4`, every other field valid)
satisfies the claimed invariant `storage ≤ ceiling − 4`, yet
`validateConfiguration` reports the clearance error and `valid = false`,
because the source tests `storage >= ceiling - 4`, not a strict
inequality. -/
theorem validate_clearance_counterexample :
    spacingExampleConfig.storage_height_ft ≤ spacingExampleConfig.ceiling_height_ft - 4 ∧
    validateConfiguration spacingExampleConfig =
      { valid := false
        errors := ["Storage height must be at least 4 feet below ceiling"] } := by
  constructor
  · norm_num [spacingExampleConfig]
  · simp only [validateConfiguration, validateConfigurationErrors, spacingExampleConfig,
      ASRSType.str, SystemType.str]
    norm_num
    simp

/-- C2 amended: for configurations whose storage and ceiling heights are
nonzero (JS truthiness guard), `validateConfiguration` reports the
clearance error exactly when `storage_height_ft ≥ ceiling_height_ft − 4`
— the boundary case is flagged too, so the claim's strict/non-strict split
moves by one: the error-free region is `storage < ceiling − 4`, and any
configuration with the clearance error is invalid. -/
theorem validate_clearance_amended (c : ASRSConfiguration)
    (hs : c.storage_height_ft ≠ 0) (hc : c.ceiling_height_ft ≠ 0) :
    ("Storage height must be at least 4 feet below ceiling" ∈ (validateConfiguration c).errors ↔
      c.ceiling_height_ft - 4 ≤ c.storage_height_ft) ∧
    (c.ceiling_height_ft - 4 ≤ c.storage_height_ft → (validateConfiguration c).valid = false) := by
  have hmem : "Storage height must be at least 4 feet below ceiling" ∈
      (validateConfiguration c).errors ↔ c.ceiling_height_ft - 4 ≤ c.storage_height_ft := by
    simp [validateConfiguration, validateConfigurationErrors, mem_ite_singleton, hs, hc]
  refine ⟨hmem, fun hle => ?_⟩
  have h := hmem.mpr hle
  simp only [validateConfiguration] at h ⊢
  rcases hne : validateConfigurationErrors c with _ | _
  · rw [hne] at h
    simp at h
  · simp [hne]

/-- Witness for C2's amended theorem at the boundary configuration. -/
theorem validate_clearance_amended_witness :
    "Storage height must be at least 4 feet below ceiling" ∈
      (validateConfiguration spacingExampleConfig).errors ∧
    (validateConfiguration spacingExampleConfig).valid = false := by
  have h := validate_clearance_amended spacingExampleConfig
    (by simp [spacingExampleConfig]) (by simp [spacingExampleConfig])
  have hle : spacingExampleConfig.ceiling_height_ft - 4 ≤
      spacingExampleConfig.storage_height_ft := by
    norm_num [spacingExampleConfig]
  exact ⟨h.1.mpr hle, h.2 hle⟩

/-- Concrete closed-top wet configuration on which no optimization rule
fires. -/
def noRuleConfig : ASRSConfiguration :=
  { asrs_type := ASRSType.shuttle
    container_type := ContainerType.closedTop
    rack_depth_ft := 20
    rack_spacing_ft := 4
    ceiling_height_ft := 28
    aisle_width_ft := 5
    commodity_type := ["Class I-II"]
    storage_height_ft := 20
    system_type := SystemType.wet
    building_type := none
    sprinkler_coverage := none
    expected_throughput := none }

/-- Concrete calculation result with the default 8 ft spacing (spacing rule
does not fire). -/
def noRuleCalculations : DesignCalculations :=
  { total_sprinklers := 51
    sprinkler_spacing := 8
    protection_scheme := "Ceiling-only wet system"
    design_area_sqft := 3264
    flow_rate_gpm := 240
    pressure_psi := 100 }

/-- Concrete calculation result with tightened 6 ft spacing (spacing rule
fires on a non-Open-Top configuration). -/
def tightSpacingCalculations : DesignCalculations :=
  { total_sprinklers := 68
    sprinkler_spacing := 6
    protection_scheme := "Ceiling-only wet system"
    design_area_sqft := 2448
    flow_rate_gpm := 240
    pressure_psi := 100 }

/-- Concrete empty cost breakdown. -/
def emptyCosts : CostBreakdown :=
  { items := []
    subtotal := 0
    labor := 0
    total := 0 }

/-- C8: the optimization-suggestion list is always sorted in descending
order of `estimated_savings` (for 0, 1 or N fired rules), and is empty when
none of the three rules fires. -/
theorem optimization_suggestions_sorted (c : ASRSConfiguration)
    (calculations : DesignCalculations) (costs : CostBreakdown) :
    (generateOptimizationSuggestions c calculations costs).Pairwise
      (fun a b => b.estimated_savings ≤ a.estimated_savings) ∧
    (¬(calculations.sprinkler_spacing < 8 ∧ c.container_type ≠ ContainerType.openTop) →
      ¬(c.system_type = SystemType.dry ∧ c.ceiling_height_ft < 25) →
      ¬(c.container_type = ContainerType.openTop ∧
          c.commodity_type.all (fun x => !strContains x "Plastic")) →
      generateOptimizationSuggestions c calculations costs = []) := by
  constructor
  · unfold generateOptimizationSuggestions
    refine List.Pairwise.imp ?_ (List.sorted_mergeSort ?_ ?_ _)
    · intro a b h
      simpa [savingsDescLe] using h
    · intro a b d hab hbd
      simp only [savingsDescLe, decide_eq_true_eq] at hab hbd ⊢
      omega
    · intro a b
      simp only [savingsDescLe, Bool.or_eq_true, decide_eq_true_eq]
      omega
  · intro h1 h2 h3
    simp only [generateOptimizationSuggestions]
    rw [if_neg h1, if_neg h2, if_neg h3]
    simp

/-- Witness for C8: with 8 ft spacing, a wet system and closed-top
containers, no rule fires and the suggestion list is empty. -/
theorem optimization_suggestions_sorted_witness :
    generateOptimizationSuggestions noRuleConfig noRuleCalculations emptyCosts = [] :=
  (optimization_suggestions_sorted noRuleConfig noRuleCalculations emptyCosts).2
    (by norm_num [noRuleCalculations]) (by simp [noRuleConfig]) (by simp [noRuleConfig])

/-- C10: every spacing-optimization suggestion records its change by
overwriting `rack_spacing_ft` with 8 in `new_configuration` — all other
configuration fields unchanged, and no sprinkler-spacing field exists to
update — and whenever the spacing rule fires (spacing < 8, container not
Open-Top) such a suggestion is present. -/
theorem spacing_suggestion_new_configuration (c : ASRSConfiguration)
    (calculations : DesignCalculations) (costs : CostBreakdown) :
    (∀ s ∈ generateOptimizationSuggestions c calculations costs,
      s.type = SuggestionType.spacing_optimization →
      s.new_configuration = some { c with rack_spacing_ft := 8 }) ∧
    (calculations.sprinkler_spacing < 8 → c.container_type ≠ ContainerType.openTop →
      ∃ s ∈ generateOptimizationSuggestions c calculations costs,
        s.type = SuggestionType.spacing_optimization ∧
        s.new_configuration = some { c with rack_spacing_ft := 8 }) := by
  constructor
  · intro s hs htype
    simp only [generateOptimizationSuggestions, List.mem_mergeSort, List.mem_append,
      mem_ite_singleton] at hs
    rcases hs with (⟨hcond, rfl⟩ | ⟨hcond, rfl⟩) | ⟨hcond, rfl⟩
    · rfl
    · exact absurd htype (by simp)
    · exact absurd htype (by simp)
  · intro hlt hne
    refine ⟨{ type := SuggestionType.spacing_optimization
              description := "Increase sprinkler spacing from " ++
                toString calculations.sprinkler_spacing ++ "ft to 8ft"
              estimated_savings := calculateSpacingOptimization calculations costs
              feasibility := Feasibility.high
              requirements_impact := "No impact on FM Global compliance for closed-top containers"
              new_configuration := some { c with rack_spacing_ft := 8 } }, ?_, rfl, rfl⟩
    simp only [generateOptimizationSuggestions, List.mem_mergeSort, List.mem_append,
      mem_ite_singleton]
    exact Or.inl (Or.inl ⟨⟨hlt, hne⟩, trivial⟩)

/-- Witness for C10 at concrete inputs where the spacing rule fires. -/
theorem spacing_suggestion_new_configuration_witness :
    ∃ s ∈ generateOptimizationSuggestions noRuleConfig tightSpacingCalculations emptyCosts,
      s.type = SuggestionType.spacing_optimization ∧
      s.new_configuration = some { noRuleConfig with rack_spacing_ft := 8 } :=
  (spacing_suggestion_new_configuration noRuleConfig tightSpacingCalculations emptyCosts).2
    (by norm_num [tightSpacingCalculations]) (by simp [noRuleConfig])

/-- The material subtotal the spec speaks of: the sum of all line-item
extensions, computed directly from the four equipment groups. -/
def equipmentSubtotal (equipment : EquipmentList) : ℚ :=
  (equipment.sprinklers.map (fun s => s.quantity * s.unit_cost)).sum +
  (equipment.piping.map (fun p => p.length * p.unit_cost)).sum +
  (equipment.fittings.map (fun f => f.quantity * f.unit_cost)).sum +
  (equipment.pumps.map PumpSpec.unit_cost).sum

/-- Concrete equipment list whose material subtotal is 0.5, so 40% of it is
not an integer. -/
def fractionalEquipment : EquipmentList :=
  { sprinklers := [{ type := "Quick Response K11.2"
                     kfactor := "11.2"
                     quantity := 1
                     unit_cost := 0.5 }]
    piping := []
    fittings := []
    pumps := []
    total_estimated_cost := 0.5 }

/-- C9 counterexample: on an equipment list with material subtotal 0.5 the
computed labor is `Math.round(0.5 × 0.4) = 0`, not the claimed 40% of the
subtotal (0.2). -/
theorem labor_forty_percent_counterexample :
    (calculateComprehensiveCost fractionalEquipment noRuleConfig).labor = 0 ∧
    0.4 * equipmentSubtotal fractionalEquipment = 0.2 ∧
    (calculateComprehensiveCost fractionalEquipment noRuleConfig).labor ≠
      0.4 * equipmentSubtotal fractionalEquipment := by
  have hfloor : (⌊(1 : ℚ) * 0.5 * 0.4 + 1 / 2⌋ : ℤ) = 0 := by
    rw [Int.floor_eq_iff] <;> norm_num
  refine ⟨?_, ?_, ?_⟩
  · simp only [calculateComprehensiveCost, fractionalEquipment, jsRound]
    norm_num [hfloor]
  · norm_num [equipmentSubtotal, fractionalEquipment]
  · simp only [calculateComprehensiveCost, fractionalEquipment, jsRound,
      equipmentSubtotal]
    norm_num [hfloor]

/-- C9 amended: for every equipment list, labor is 40% of the material
subtotal rounded to the nearest unit (`Math.round`, halves up) — exactly
40% only when that product is an integer — `total` is the unrounded
material subtotal plus labor, and the reported `subtotal` field is the
rounded material subtotal. -/
theorem cost_breakdown_amended (equipment : EquipmentList) (c : ASRSConfiguration) :
    (calculateComprehensiveCost equipment c).labor =
      ((jsRound (equipmentSubtotal equipment * 0.4) : ℤ) : ℚ) ∧
    (calculateComprehensiveCost equipment c).total =
      equipmentSubtotal equipment + (calculateComprehensiveCost equipment c).labor ∧
    (calculateComprehensiveCost equipment c).subtotal =
      ((jsRound (equipmentSubtotal equipment) : ℤ) : ℚ) := by
  have hsum :
      ((equipment.sprinklers.map (fun (s : SprinklerSpec) =>
          ({ description := s.type ++ " Sprinklers (" ++ toString s.quantity ++ ")"
             unit_cost := s.unit_cost
             quantity := s.quantity
             total := s.quantity * s.unit_cost } : CostLineItem)) ++
        equipment.piping.map (fun (p : PipeSpec) =>
          ({ description := p.size ++ " Pipe (" ++ toString p.length ++ " ft)"
             unit_cost := p.unit_cost
             quantity := p.length
             total := p.length * p.unit_cost } : CostLineItem)) ++
        equipment.fittings.map (fun (f : FittingSpec) =>
          ({ description := f.type ++ " (" ++ toString f.quantity ++ ")"
             unit_cost := f.unit_cost
             quantity := f.quantity
             total := f.quantity * f.unit_cost } : CostLineItem)) ++
        equipment.pumps.map (fun (p : PumpSpec) =>
          ({ description := p.type ++ " (" ++ toString p.gpm ++ " GPM @ " ++
              toString p.pressure ++ " PSI)"
             unit_cost := p.unit_cost
             quantity := 1
             total := p.unit_cost } : CostLineItem))).map CostLineItem.total).sum =
      equipmentSubtotal equipment := by
    simp [equipmentSubtotal, List.map_append, List.sum_append, List.map_map,
      Function.comp_def, add_assoc]
  refine ⟨?_, ?_, ?_⟩ <;>
    simp only [calculateComprehensiveCost, hsum, mul_comm]

/-- C7: each of the three retrieval lookups is independently
fault-tolerant.  A failing figures, tables or text lookup yields `[]` for
its record kind; with a failing tables lookup the merged retrieval equals
the run with zero table rows — figure and text sources are kept, the
table-reference list is empty, and no source in the merged list is a table
(the total function returns a value, never an exception); when all three
lookups fail the caller receives entirely empty results, not an error. -/
theorem retrieval_fault_tolerance
    (figRes : Except String (List FigureRow))
    (metaRes : Except String (List TableRow))
    (txtRes : Except String (List TextChunkRow))
    (config : Option PartialASRSConfiguration) (e e1 e2 e3 : String) :
    searchFigureVectors (Except.error e) config = [] ∧
    searchTableVectors (Except.error e) metaRes config = [] ∧
    searchTextChunks (Except.error e) = [] ∧
    searchMultiVector figRes (Except.error e) metaRes txtRes config =
      searchMultiVector figRes (Except.ok []) metaRes txtRes config ∧
    (searchMultiVector figRes (Except.error e) metaRes txtRes config).tables_referenced = [] ∧
    (searchMultiVector figRes (Except.error e) metaRes txtRes config).figures_referenced =
      (searchFigureVectors figRes config).map FigureResult.figure_number ∧
    (∀ s ∈ (searchMultiVector figRes (Except.error e) metaRes txtRes config).sources,
      ∀ t, s ≠ RetrievedSource.table t) ∧
    searchMultiVector (Except.error e1) (Except.error e2) metaRes (Except.error e3) config =
      { sources := [], figures_referenced := [], tables_referenced := [] } := by
  have htv : searchTableVectors (Except.ok []) metaRes config = [] := by
    cases metaRes <;> rfl
  refine ⟨rfl, rfl, rfl, ?_, rfl, rfl, ?_, ?_⟩
  · cases metaRes <;> simp [searchMultiVector, searchTableVectors]
  · intro s hs t
    simp only [searchMultiVector, searchTableVectors, List.map_nil, List.nil_append,
      List.append_nil] at hs
    have hs' := List.mem_of_mem_take hs
    rw [List.mem_mergeSort, List.mem_append] at hs'
    rcases hs' with h | h <;>
      · obtain ⟨x, _, rfl⟩ := List.mem_map.mp h
        simp
  · simp [searchMultiVector, searchTableVectors, searchFigureVectors, searchTextChunks]

/-- Scenario A configuration of the spec: Shuttle, Closed-Top, rack depth
20 ft, rack spacing 4 ft, ceiling 32 ft, storage 28 ft, wet system,
Class I-II commodity. -/
def scenarioAConfig : ASRSConfiguration :=
  { asrs_type := ASRSType.shuttle
    container_type := ContainerType.closedTop
    rack_depth_ft := 20
    rack_spacing_ft := 4
    ceiling_height_ft := 32
    aisle_width_ft := 5
    commodity_type := ["Class I-II"]
    storage_height_ft := 28
    system_type := SystemType.wet
    building_type := none
    sprinkler_coverage := none
    expected_throughput := none }

/-- What the code actually computes on scenario A. -/
def scenarioACalc : DesignCalculations :=
  { total_sprinklers := 51
    sprinkler_spacing := 8
    protection_scheme := "Ceiling plus in-rack protection"
    design_area_sqft := 3264
    flow_rate_gpm := 288
    pressure_psi := 704 }

theorem scenarioA_spacing : sprinklerSpacingOf scenarioAConfig = 8 := by
  simp [sprinklerSpacingOf, scenarioAConfig]

theorem scenarioA_per_rack : sprinklersPerRack scenarioAConfig = 3 := by
  have h1 : (⌈(20 : ℚ) / 8⌉ : ℤ) = 3 := by
    rw [Int.ceil_eq_iff] <;> norm_num
  have h2 : (⌈(4 : ℚ) / 8⌉ : ℤ) = 1 := by
    rw [Int.ceil_eq_iff] <;> norm_num
  rw [sprinklersPerRack, scenarioA_spacing]
  simp only [scenarioAConfig]
  rw [h1, h2]
  norm_num

theorem scenarioA_racks : estimateNumberOfRacks scenarioAConfig = 17 := by
  rw [estimateNumberOfRacks]
  simp only [scenarioAConfig]
  rw [Int.ceil_eq_iff] <;> norm_num

theorem scenarioA_total : totalSprinklersOf scenarioAConfig = 51 := by
  rw [totalSprinklersOf, scenarioA_per_rack, scenarioA_racks]
  norm_num

theorem scenarioA_flow : calculateFlowRate scenarioAConfig 51 = 288 := by
  have hc3 : (List.any ["Class I-II"] fun x => strContains x "Class III") = false := by decide
  have hc4 : (List.any ["Class I-II"] fun x => strContains x "Class IV") = false := by decide
  have hpl : (List.any ["Class I-II"] fun x => strContains x "Plastic") = false := by decide
  simp only [calculateFlowRate, scenarioAConfig, hc3, hc4, hpl, Bool.false_eq_true, if_false]
  rw [if_pos (by norm_num), show min (51 : ℤ) 12 = 12 by norm_num, Int.ceil_eq_iff] <;>
    norm_num

theorem scenarioA_pressure : calculatePressureRequirement scenarioAConfig 288 = 704 := by
  simp only [calculatePressureRequirement, scenarioAConfig]
  rw [if_neg (by simp), max_def, if_pos (by norm_num), Int.ceil_eq_iff] <;> norm_num

theorem scenarioA_protection :
    protectionSchemeOf scenarioAConfig = "Ceiling plus in-rack protection" := by
  simp only [protectionSchemeOf, scenarioAConfig]
  rw [if_neg (by simp), if_pos (Or.inl (by norm_num))]

theorem scenarioA_eval :
    performDesignCalculations scenarioAConfig [shuttleWetTable] = some scenarioACalc := by
  have hsel : selectPrimaryDesignTable [shuttleWetTable] scenarioAConfig =
      some shuttleWetTable := rfl
  rw [performDesignCalculations, hsel]
  simp only [scenarioACalc, scenarioA_total, scenarioA_spacing, scenarioA_protection,
    scenarioA_flow, scenarioA_pressure, Option.some.injEq, DesignCalculations.mk.injEq]
  norm_num

/-- C1 counterexample: on scenario A the code computes flow 288 GPM (the
ceiling is 32 ft > 30, so the 1.2 multiplier IS applied) and pressure
704 psi, not the claimed 240 GPM and 497 psi. -/
theorem scenario_a_counterexample :
    (performDesignCalculations scenarioAConfig [shuttleWetTable]).map
        (fun d => (d.flow_rate_gpm, d.pressure_psi)) = some (288, 704) ∧
    ((288 : ℤ), (704 : ℤ)) ≠ ((240 : ℤ), (497 : ℤ)) := by
  rw [scenarioA_eval]
  exact ⟨rfl, by decide⟩

/-- C1 amended: scenario A yields spacing 8 ft, 3 sprinklers per rack, 17
estimated racks, 51 total sprinklers — but flow 288 GPM (the 1.2
ceiling-height multiplier applies, since 32 > 30) and pressure 704 psi;
704 > 175 still triggers the pressure-reducing-valve entry in
`required_modifications`. -/
theorem scenario_a_amended :
    performDesignCalculations scenarioAConfig [shuttleWetTable] = some scenarioACalc ∧
    sprinklersPerRack scenarioAConfig = 3 ∧
    estimateNumberOfRacks scenarioAConfig = 17 ∧
    scenarioACalc.total_sprinklers = 51 ∧
    scenarioACalc.sprinkler_spacing = 8 ∧
    scenarioACalc.flow_rate_gpm = 288 ∧
    scenarioACalc.pressure_psi = 704 ∧
    175 < scenarioACalc.pressure_psi ∧
    (validateDesignCompliance scenarioAConfig scenarioACalc).required_modifications =
      ["System pressure exceeds 175 PSI - pressure reducing valves required"] := by
  refine ⟨scenarioA_eval, scenarioA_per_rack, scenarioA_racks, rfl, rfl, rfl, rfl,
    by norm_num [scenarioACalc], ?_⟩
  simp only [validateDesignCompliance, scenarioACalc]
  norm_num

end FMGlobal
